import Mathlib

/-!
Shallow embedding of the translation orchestration core of the
neural-translator desktop app, as implemented in the App component
(`detectLanguageAndTranslate`, source lines 246-443 of the combined
component file).  The React state hooks become explicit fields of
`AppState`; the Tauri `invoke` calls become oracle functions supplied by
an `Env`; a rejected promise is `Except.error`.  The per-invocation trace
(`HandleOut`) records, besides the resulting state, the backend translate
calls issued, the history-sink writes attempted, whether the
is-translating flag was ever raised, and whether the catch-block
Ollama fallback produced the result.
-/

namespace NeuralTranslator

/-- The two translation backends: the ML engine and Ollama
(`'ml' | 'ollama'` in the source). -/
inductive Engine where
  | ml
  | ollama
deriving DecidableEq

/-- A JavaScript exception value as far as the catch block inspects it:
either a string (the `typeof error === 'string'` branch) or anything
else. -/
inductive ErrVal where
  | str (s : String)
  | other
deriving DecidableEq

/-- `MLTranslateResponse` (source lines 99-103); `confidence_score` is
never read by the orchestration code and is omitted. -/
structure MLTranslateResponse where
  translated_text : String
  latency_ms : Nat
deriving DecidableEq

/-- External collaborators of one `handle` run: localStorage values, the
four engine endpoints, and the wall-clock duration each backend call
takes (used for the orchestrator-measured `performance.now()` latency;
`latency_ms` inside `MLTranslateResponse` is a value the ML engine
reports, independent of `mlDuration`). -/
structure Env where
  nativeLangStored : Option String
  saveHistoryStored : Option String
  mlDetect : String → Except ErrVal String
  ollamaDetect : String → Except ErrVal String
  mlTranslate : String → String → String → Except ErrVal MLTranslateResponse
  ollamaTranslate : String → String → String → Except ErrVal String
  mlDuration : Nat
  ollamaDuration : Nat

/-- The React state hooks read or written by `detectLanguageAndTranslate`
(source lines 122-136).  `translationCache` is the insertion-ordered JS
`Map`, embedded as an association list. -/
structure AppState where
  fromLang : String
  toLang : String
  translatedText : String
  isTranslating : Bool
  lastTranslationLatency : Option Nat
  lastUsedEngine : Option Engine
  useMLEngine : Bool
  mlEngineHealthy : Bool
  isHealthy : Bool
  translationCache : List (String × String)
deriving DecidableEq

/-- One backend translate invocation: which engine, the arguments passed,
the wall-clock duration of the call, and whether it succeeded. -/
structure TCall where
  engine : Engine
  text : String
  fromLang : String
  toLang : String
  duration : Nat
  ok : Bool
deriving DecidableEq

/-- The payload of one `save_translation_history` invocation
(source lines 352-360). -/
structure HistEntry where
  sourceText : String
  translatedText : String
  fromLanguage : String
  toLanguage : String
  engine : Engine
  latencyMs : Option Nat
deriving DecidableEq

/-- Result of one `handle` run: final state plus the observable trace. -/
structure HandleOut where
  state : AppState
  calls : List TCall
  history : List HistEntry
  sawTranslatingTrue : Bool
  fallbackSucceeded : Bool
deriving DecidableEq

/-- JavaScript blankness test `!s.trim()`: true exactly when every
character is whitespace (so trimming would leave the empty string).
Embedded directly as an all-whitespace check because the claims only
ever use trimming through this emptiness test. -/
def isBlankText (s : String) : Bool :=
  s.data.all Char.isWhitespace

/-- Whether the first list is a prefix of the second, letter by letter. -/
def charsPrefix : List Char → List Char → Bool
  | [], _ => true
  | _ :: _, [] => false
  | a :: as, b :: bs => a == b && charsPrefix as bs

/-- Whether the second list occurs contiguously inside the first. -/
def charsContain : List Char → List Char → Bool
  | [], pat => pat.isEmpty
  | a :: t, pat => charsPrefix pat (a :: t) || charsContain t pat

/-- JavaScript `s.includes(pat)`, used by the catch block on its literal
error patterns: substring containment. -/
def strIncludes (s pat : String) : Bool :=
  charsContain s.data pat.data

/-- `localStorage.getItem("nativeLang") || "Japanese"` (source line 274). -/
def nativeLangOf (env : Env) : String :=
  env.nativeLangStored.getD "Japanese"

/-- `localStorage.getItem('saveHistory') !== 'false'` (source line 348). -/
def saveHistoryEnabled (env : Env) : Bool :=
  env.saveHistoryStored != some "false"

/-- The engine selected by `useMLEngine && mlEngineHealthy`
(source lines 258, 315, 357). -/
def chooseEngine (st : AppState) : Engine :=
  if st.useMLEngine && st.mlEngineHealthy then Engine.ml else Engine.ollama

/-- The language-detection call (source lines 256-264): ML engine when
selected and healthy, otherwise Ollama. -/
def detectOutcome (env : Env) (st : AppState) (text : String) :
    Except ErrVal String :=
  if st.useMLEngine && st.mlEngineHealthy then env.mlDetect text
  else env.ollamaDetect text

/-- Target-language resolution (source lines 276-299).  `fromLang0` and
`toLang0` are the values captured by the closure at invocation time.  In
the final pass-through branch the source skips `setToLang`, but the
value it would have set coincides with `toLang0`, so the resolved target
is also the target-language state after the run. -/
def computeActualTo (fromLang0 toLang0 nativeLang detectedLang : String) :
    String :=
  if fromLang0 == "Auto" then
    if detectedLang == nativeLang then "English"
    else if detectedLang == "English" then nativeLang
    else nativeLang
  else if detectedLang == toLang0 then
    if detectedLang == nativeLang then "English"
    else nativeLang
  else toLang0

/-- The cache fingerprint (source line 302). -/
def cacheKeyOf (text fromL toL : String) : String :=
  text ++ "|" ++ fromL ++ "|" ++ toL

/-- JS `Map.set`: an existing key keeps its position and gets the new
value, a fresh key is appended (insertion order). -/
def mapSet (c : List (String × String)) (k v : String) :
    List (String × String) :=
  if (c.lookup k).isSome then
    c.map (fun p => if p.1 == k then (k, v) else p)
  else c ++ [(k, v)]

/-- JS `Map.delete`. -/
def mapDelete (c : List (String × String)) (k : String) :
    List (String × String) :=
  c.eraseP (fun p => p.1 == k)

/-- The cache-size limiting block (source lines 367-373).  The guard
`if (firstKey)` is JS truthiness, so an empty-string first key skips the
delete. -/
def limitCache (c : List (String × String)) : List (String × String) :=
  if c.length > 100 then
    match c.head? with
    | some p => if p.1 == "" then c else mapDelete c p.1
    | none => c
  else c

/-- `latencyMs: latency > 0 ? latency : undefined` (source line 358). -/
def latencyOpt (l : Nat) : Option Nat :=
  if l > 0 then some l else none

/-- Result of a successful primary translate attempt: the translated
text, the latency value recorded into state, and the wall-clock duration
of the call. -/
structure PrimaryOk where
  text : String
  recorded : Nat
  duration : Nat
deriving DecidableEq

/-- The primary translation attempt (source lines 315-340): ML engine
when selected and healthy (recording the engine-reported `latency_ms`),
otherwise Ollama (recording the `performance.now()` difference, i.e. the
call's wall-clock duration). -/
def primaryTranslate (env : Env) (st : AppState) (text fromL toL : String) :
    Except ErrVal PrimaryOk :=
  if st.useMLEngine && st.mlEngineHealthy then
    (env.mlTranslate text fromL toL).map
      (fun r => ⟨r.translated_text, r.latency_ms, env.mlDuration⟩)
  else
    (env.ollamaTranslate text fromL toL).map
      (fun s => ⟨s, env.ollamaDuration, env.ollamaDuration⟩)

/-- Wall-clock duration of the primary attempt, also when it fails. -/
def primaryDuration (env : Env) (st : AppState) : Nat :=
  if st.useMLEngine && st.mlEngineHealthy then env.mlDuration
  else env.ollamaDuration

/-- The guarded history write (source lines 348-365 and 399-416):
attempted only when saving is enabled and both texts are non-blank; a
failure of the write itself is swallowed and changes nothing observable
here. -/
def mkHistory (env : Env) (text result fromL toL : String) (eng : Engine)
    (lat : Nat) : List HistEntry :=
  if saveHistoryEnabled env && !isBlankText text && !isBlankText result then
    [⟨text, result, fromL, toL, eng, latencyOpt lat⟩]
  else []

/-- Message shown when the error string matches a refused Ollama
connection (source line 427). -/
def msgOllamaConnect : String :=
  "Ollamaに接続できません。Ollamaが起動していることを確認してください。\n\n起動方法: ollama serve"

/-- Message shown when no suitable model is available (source line 429). -/
def msgNoModel : String :=
  "適切なモデルが見つかりません。\n\n以下のコマンドでモデルをインストールしてください:\nollama pull llama3.1:8b"

/-- Message shown for other model-related errors (source line 431). -/
def msgModelLoad : String :=
  "モデルの読み込みエラーです。しばらく待ってから再試行してください。"

/-- Message shown when both engines are unhealthy (source line 436). -/
def msgEngineUnavailable : String :=
  "翻訳エンジンが利用できません。\n\nOllamaを起動してください:\nollama serve"

/-- The default error message (source line 377). -/
def msgGenericError : String := "翻訳エラーが発生しました"

/-- Error-message selection of the catch block (source lines 377,
424-437): the three pattern-matched templates, the generic string
template, the both-engines-unhealthy message, and the default. -/
def errorMessageFor (e : ErrVal) (st : AppState) : String :=
  match e with
  | ErrVal.str s =>
      if strIncludes s "Cannot connect to Ollama" then msgOllamaConnect
      else if strIncludes s "No suitable model available" then msgNoModel
      else if strIncludes s "model" then msgModelLoad
      else "エラー: " ++ s
  | ErrVal.other =>
      if !st.isHealthy && !st.mlEngineHealthy then msgEngineUnavailable
      else msgGenericError

/-- The fixed taxonomy of user-facing failure messages of the
specification (its error-handling section): a message is in the taxonomy
when it is one of the five fixed templates or an instance of the generic
string-error template. -/
def inErrorTaxonomy (msg : String) : Prop :=
  msg = msgOllamaConnect ∨ msg = msgNoModel ∨ msg = msgModelLoad ∨
  (∃ s, msg = "エラー: " ++ s) ∨ msg = msgEngineUnavailable ∨
  msg = msgGenericError

/-- The catch block (source lines 374-439) followed by the finally block.
`stc` is the component state as already updated before the throw;
`aF`, `aT`, `ck` are the `actualFromLang`, `actualToLang`, `cacheKey`
locals at the moment of the throw; `e` the caught error.  The Ollama
fallback runs only when the ML engine is selected, healthy, and Ollama is
healthy; its success writes the cache entry (with no size limiting) and
returns.  Otherwise the classified error message becomes the visible
translated text. -/
def runCatch (env : Env) (stc : AppState) (text aF aT ck : String)
    (e : ErrVal) (calls0 : List TCall) (sawT : Bool) : HandleOut :=
  if stc.useMLEngine && stc.mlEngineHealthy && stc.isHealthy then
    match env.ollamaTranslate text aF aT with
    | Except.ok s =>
        { state := { stc with
            translatedText := s,
            lastTranslationLatency := some env.ollamaDuration,
            lastUsedEngine := some Engine.ollama,
            isTranslating := false,
            translationCache := mapSet stc.translationCache ck s },
          calls := calls0 ++ [⟨Engine.ollama, text, aF, aT, env.ollamaDuration, true⟩],
          history := mkHistory env text s aF aT Engine.ollama env.ollamaDuration,
          sawTranslatingTrue := sawT,
          fallbackSucceeded := true }
    | Except.error _ =>
        { state := { stc with
            translatedText := errorMessageFor e stc,
            isTranslating := false },
          calls := calls0 ++ [⟨Engine.ollama, text, aF, aT, env.ollamaDuration, false⟩],
          history := [],
          sawTranslatingTrue := sawT,
          fallbackSucceeded := false }
  else
    { state := { stc with
        translatedText := errorMessageFor e stc,
        isTranslating := false },
      calls := calls0,
      history := [],
      sawTranslatingTrue := sawT,
      fallbackSucceeded := false }

/-- `detectLanguageAndTranslate` (source lines 246-443), one complete
run against the environment `env` from component state `st`.  The blank
guard returns before the try block; a detection failure reaches the
catch with the declared languages and the empty cache key; otherwise the
pair is resolved, the cache consulted, and the primary translate
attempted, its failure reaching the catch with the resolved languages
and real cache key. -/
def handle (env : Env) (st : AppState) (text : String) : HandleOut :=
  if isBlankText text then
    { state := st, calls := [], history := [],
      sawTranslatingTrue := false, fallbackSucceeded := false }
  else
    match detectOutcome env st text with
    | Except.error e =>
        runCatch env st text st.fromLang st.toLang "" e [] false
    | Except.ok detectedLang =>
        let fromLang1 := if st.fromLang == "Auto" then detectedLang
          else st.fromLang
        let actualToLang :=
          computeActualTo st.fromLang st.toLang (nativeLangOf env) detectedLang
        let st2 := { st with fromLang := fromLang1, toLang := actualToLang }
        let cacheKey := cacheKeyOf text detectedLang actualToLang
        match st.translationCache.lookup cacheKey with
        | some cached =>
            { state := { st2 with translatedText := cached, isTranslating := false },
              calls := [], history := [],
              sawTranslatingTrue := false, fallbackSucceeded := false }
        | none =>
            match primaryTranslate env st text detectedLang actualToLang with
            | Except.ok r =>
                { state := { st2 with
                    translatedText := r.text,
                    lastTranslationLatency := some r.recorded,
                    lastUsedEngine := some (chooseEngine st),
                    isTranslating := false,
                    translationCache :=
                      limitCache (mapSet st.translationCache cacheKey r.text) },
                  calls := [⟨chooseEngine st, text, detectedLang, actualToLang, r.duration, true⟩],
                  history := mkHistory env text r.text detectedLang actualToLang
                    (chooseEngine st) r.recorded,
                  sawTranslatingTrue := true,
                  fallbackSucceeded := false }
            | Except.error e =>
                runCatch env st2 text detectedLang actualToLang cacheKey e
                  [⟨chooseEngine st, text, detectedLang, actualToLang,
                    primaryDuration env st, false⟩] true

/-! Concrete environments and states used to evaluate the definitions on
specific inputs. -/

/-- An environment with native language Japanese, history saving left at
its default, both detectors answering English, and both translators
succeeding. -/
def baseEnv : Env where
  nativeLangStored := some "Japanese"
  saveHistoryStored := none
  mlDetect := fun _ => Except.ok "English"
  ollamaDetect := fun _ => Except.ok "English"
  mlTranslate := fun _ _ _ => Except.ok ⟨"ml-res", 7⟩
  ollamaTranslate := fun _ _ _ => Except.ok "ol-res"
  mlDuration := 50
  ollamaDuration := 20

/-- A fresh component state: source Auto, target Japanese, Ollama
selected and healthy, ML engine off, empty cache. -/
def baseState : AppState where
  fromLang := "Auto"
  toLang := "Japanese"
  translatedText := ""
  isTranslating := false
  lastTranslationLatency := none
  lastUsedEngine := none
  useMLEngine := false
  mlEngineHealthy := false
  isHealthy := true
  translationCache := []

/-- `baseEnv` with native language English. -/
def envNativeEnglish : Env := { baseEnv with nativeLangStored := some "English" }

/-- A translation cache already holding 100 distinct entries. -/
def fullCache : List (String × String) :=
  (List.range 100).map (fun i => (toString i ++ "|a|b", "v"))

/-- ML engine selected and healthy, Ollama healthy, cache full. -/
def stFullCacheML : AppState :=
  { baseState with useMLEngine := true, mlEngineHealthy := true,
                   translationCache := fullCache }

/-- A fresh Ollama-selected state whose cache is already full. -/
def stFullCache : AppState := { baseState with translationCache := fullCache }

/-- `baseEnv` whose ML translator always fails. -/
def envMLBoom : Env :=
  { baseEnv with mlTranslate := fun _ _ _ => Except.error (ErrVal.str "boom") }

/-- Ollama selected (preference flag off) while the ML engine is healthy. -/
def stOllamaPreferred : AppState := { baseState with mlEngineHealthy := true }

/-- `baseEnv` whose Ollama translator always fails. -/
def envOllamaBoom : Env :=
  { baseEnv with ollamaTranslate := fun _ _ _ => Except.error (ErrVal.str "boom") }

/-- `baseEnv` whose Ollama detector always fails. -/
def envDetectBoom : Env :=
  { baseEnv with ollamaDetect := fun _ => Except.error (ErrVal.str "detect boom") }

/-- Manual mode: declared source Japanese, target English. -/
def stManual : AppState := { baseState with fromLang := "Japanese", toLang := "English" }

/-- `baseEnv` whose Ollama detector answers French. -/
def envDetectFrench : Env :=
  { baseEnv with ollamaDetect := fun _ => Except.ok "French" }

/-- Manual mode with two concrete distinct languages. -/
def stTwoLangs : AppState :=
  { baseState with fromLang := "Chinese", toLang := "Japanese" }

/-- `baseEnv` with both translators failing: the ML one with a
connection-refused string, the Ollama one with a non-string error. -/
def envBothFail : Env :=
  { baseEnv with
      mlTranslate := fun _ _ _ =>
        Except.error (ErrVal.str "Cannot connect to Ollama (os error 61)"),
      ollamaTranslate := fun _ _ _ => Except.error ErrVal.other }

/-- ML engine selected and healthy on a fresh state. -/
def stMLSel : AppState :=
  { baseState with useMLEngine := true, mlEngineHealthy := true }

/-- A state whose cache already holds the fingerprint that the next
request for "hello" resolves to, with engine and latency metadata left
over from a previous translation. -/
def stHitAuto : AppState :=
  { baseState with
      translationCache := [("hello|English|Japanese", "cached-tr")],
      lastUsedEngine := some Engine.ml,
      lastTranslationLatency := some 9 }

/-! Lemmas about the embedded operations, followed by the claim
theorems. -/

/-- A key absent from a non-empty association list differs from the head
key and is absent from the tail. -/
theorem lookup_cons_none {p : String × String} {t : List (String × String)} {k : String}
    (h : ((p :: t).lookup k) = none) : (k == p.1) = false ∧ t.lookup k = none := by
  cases hpk : (k == p.1) with
  | true => simp [List.lookup, hpk] at h
  | false =>
    refine ⟨rfl, ?_⟩
    simpa [List.lookup, hpk] using h

/-- Appending a fresh binding makes its key retrievable. -/
theorem lookup_append_single (l : List (String × String)) (k v : String)
    (h : l.lookup k = none) : ((l ++ [(k, v)]).lookup k) = some v := by
  induction l with
  | nil => simp [List.lookup]
  | cons p t ih =>
    obtain ⟨h1, h2⟩ := lookup_cons_none h
    simpa [List.lookup, h1] using ih h2

/-- `Map.set` with a fresh key appends the binding. -/
theorem mapSet_of_lookup_none {c : List (String × String)} {k : String} (v : String)
    (h : c.lookup k = none) : mapSet c k v = c ++ [(k, v)] := by
  simp [mapSet, h]

/-- A binding freshly inserted by `Map.set` survives the size-limiting
block: the limiter only ever removes the first (earliest) entry, which a
fresh key never is. -/
theorem lookup_limitCache_mapSet (c : List (String × String)) (k v : String)
    (h : c.lookup k = none) : ((limitCache (mapSet c k v)).lookup k) = some v := by
  rw [mapSet_of_lookup_none v h]
  by_cases hlen : (c ++ [(k, v)]).length > 100
  · cases c with
    | nil => simp at hlen
    | cons p t =>
      obtain ⟨h1, h2⟩ := lookup_cons_none h
      simp only [limitCache, hlen, if_pos, List.cons_append, List.head?_cons]
      by_cases hp : (p.1 == "") = true
      · simp [hp, List.lookup, h1, lookup_append_single t k v h2]
      · simp only [Bool.not_eq_true] at hp
        have hlen2 : 100 < t.length + 1 + 1 := by simpa using hlen
        simp [hp, mapDelete, List.eraseP_cons, hlen2, lookup_append_single t k v h2]
  · have hlen2 : ¬ 100 < c.length + 1 := by simpa using hlen
    simp [limitCache, hlen2, lookup_append_single c k v h]

/-- The resolved target differs from the detected language, except in
the one corner where the detected language and the native language are
both English. -/
theorem computeActualTo_ne (f t native d : String)
    (h : ¬(d = "English" ∧ native = "English")) :
    computeActualTo f t native d ≠ d := by
  simp only [computeActualTo, beq_iff_eq]
  split_ifs <;> intro hc <;> simp_all [eq_comm]

/-- With a concrete declared source, resolving a second time against the
previously resolved target yields the same target again. -/
theorem computeActualTo_stable (f t native d : String) (hf : f ≠ "Auto") :
    computeActualTo f (computeActualTo f t native d) native d =
      computeActualTo f t native d := by
  simp only [computeActualTo, beq_iff_eq]
  split_ifs <;> simp_all [eq_comm]

/-- Every message the catch block can select belongs to the fixed
taxonomy. -/
theorem errorMessageFor_taxonomy (e : ErrVal) (st : AppState) :
    inErrorTaxonomy (errorMessageFor e st) := by
  unfold errorMessageFor inErrorTaxonomy
  cases e with
  | str s =>
    by_cases h1 : strIncludes s "Cannot connect to Ollama" = true
    · simp [h1]
    · by_cases h2 : strIncludes s "No suitable model available" = true
      · simp [h1, h2]
      · by_cases h3 : strIncludes s "model" = true
        · simp [h1, h2, h3]
        · simp only [Bool.not_eq_true] at h1 h2 h3
          simp [h1, h2, h3]
  | other =>
    by_cases h : (!st.isHealthy && !st.mlEngineHealthy) = true <;> simp [h]

/-- On every run whose detection succeeds, the target-language state
afterwards equals the resolver result. -/
theorem handle_toLang (env : Env) (st : AppState) (text d : String)
    (ht : isBlankText text = false)
    (hd : detectOutcome env st text = Except.ok d) :
    (handle env st text).state.toLang =
      computeActualTo st.fromLang st.toLang (nativeLangOf env) d := by
  unfold handle
  rw [ht, hd]
  simp only [Bool.false_eq_true, if_false]
  · cases hl : st.translationCache.lookup
        (cacheKeyOf text d (computeActualTo st.fromLang st.toLang (nativeLangOf env) d)) with
    | some cached => simp [hl]
    | none =>
      simp only [hl]
      cases hp : primaryTranslate env st text d
          (computeActualTo st.fromLang st.toLang (nativeLangOf env) d) with
      | ok r => simp [hp]
      | error e =>
        simp only [hp]
        unfold runCatch
        by_cases hcfg : (st.useMLEngine && st.mlEngineHealthy && st.isHealthy) = true
        · cases ho : env.ollamaTranslate text d
              (computeActualTo st.fromLang st.toLang (nativeLangOf env) d) with
          | ok s => simp [hcfg, ho]
          | error e2 => simp [hcfg, ho]
        · simp only [Bool.not_eq_true] at hcfg
          simp [hcfg]

/-- The cache-hit path of `handle`, as one record equation: only the
source language (when Auto), the target language, the translated text
and the is-translating flag are touched; no calls, no history, no cache
write. -/
theorem handle_cache_hit (env : Env) (st : AppState) (text d v : String)
    (ht : isBlankText text = false)
    (hd : detectOutcome env st text = Except.ok d)
    (hhit : st.translationCache.lookup
      (cacheKeyOf text d (computeActualTo st.fromLang st.toLang (nativeLangOf env) d)) = some v) :
    handle env st text =
      { state := { st with
          fromLang := if st.fromLang == "Auto" then d else st.fromLang,
          toLang := computeActualTo st.fromLang st.toLang (nativeLangOf env) d,
          translatedText := v,
          isTranslating := false },
        calls := [], history := [], sawTranslatingTrue := false,
        fallbackSucceeded := false } := by
  unfold handle
  rw [ht, hd]
  simp [hhit]

/-- The primary success path of `handle`, as one record equation. -/
theorem handle_primary_ok (env : Env) (st : AppState) (text d : String)
    (r : PrimaryOk)
    (ht : isBlankText text = false)
    (hd : detectOutcome env st text = Except.ok d)
    (hmiss : st.translationCache.lookup
      (cacheKeyOf text d (computeActualTo st.fromLang st.toLang (nativeLangOf env) d)) = none)
    (hok : primaryTranslate env st text d
      (computeActualTo st.fromLang st.toLang (nativeLangOf env) d) = Except.ok r) :
    handle env st text =
      { state := { st with
          fromLang := if st.fromLang == "Auto" then d else st.fromLang,
          toLang := computeActualTo st.fromLang st.toLang (nativeLangOf env) d,
          translatedText := r.text,
          lastTranslationLatency := some r.recorded,
          lastUsedEngine := some (chooseEngine st),
          isTranslating := false,
          translationCache := limitCache (mapSet st.translationCache
            (cacheKeyOf text d (computeActualTo st.fromLang st.toLang (nativeLangOf env) d))
            r.text) },
        calls := [⟨chooseEngine st, text, d,
          computeActualTo st.fromLang st.toLang (nativeLangOf env) d, r.duration, true⟩],
        history := mkHistory env text r.text d
          (computeActualTo st.fromLang st.toLang (nativeLangOf env) d)
          (chooseEngine st) r.recorded,
        sawTranslatingTrue := true,
        fallbackSucceeded := false } := by
  unfold handle
  rw [ht, hd]
  simp [hmiss, hok]

/-- The path where the selected ML engine fails and the catch-block
Ollama fallback succeeds, as one record equation; note the cache write
without the size-limiting block. -/
theorem handle_mlfail_fallback_ok (env : Env) (st : AppState) (text d s : String)
    (e : ErrVal)
    (ht : isBlankText text = false)
    (hsel : (st.useMLEngine && st.mlEngineHealthy) = true)
    (hoh : st.isHealthy = true)
    (hd : detectOutcome env st text = Except.ok d)
    (hmiss : st.translationCache.lookup
      (cacheKeyOf text d (computeActualTo st.fromLang st.toLang (nativeLangOf env) d)) = none)
    (hfail : env.mlTranslate text d
      (computeActualTo st.fromLang st.toLang (nativeLangOf env) d) = Except.error e)
    (hok : env.ollamaTranslate text d
      (computeActualTo st.fromLang st.toLang (nativeLangOf env) d) = Except.ok s) :
    handle env st text =
      { state := { st with
          fromLang := if st.fromLang == "Auto" then d else st.fromLang,
          toLang := computeActualTo st.fromLang st.toLang (nativeLangOf env) d,
          translatedText := s,
          lastTranslationLatency := some env.ollamaDuration,
          lastUsedEngine := some Engine.ollama,
          isTranslating := false,
          translationCache := mapSet st.translationCache
            (cacheKeyOf text d (computeActualTo st.fromLang st.toLang (nativeLangOf env) d)) s },
        calls := [⟨Engine.ml, text, d,
            computeActualTo st.fromLang st.toLang (nativeLangOf env) d, env.mlDuration, false⟩,
          ⟨Engine.ollama, text, d,
            computeActualTo st.fromLang st.toLang (nativeLangOf env) d, env.ollamaDuration, true⟩],
        history := mkHistory env text s d
          (computeActualTo st.fromLang st.toLang (nativeLangOf env) d)
          Engine.ollama env.ollamaDuration,
        sawTranslatingTrue := true,
        fallbackSucceeded := true } := by
  unfold handle
  rw [ht, hd]
  have hprim : primaryTranslate env st text d
      (computeActualTo st.fromLang st.toLang (nativeLangOf env) d) = Except.error e := by
    simp [primaryTranslate, hsel, hfail, Except.map]
  simp only [hmiss, hprim]
  unfold runCatch
  have hcfg : (st.useMLEngine && st.mlEngineHealthy && st.isHealthy) = true := by
    simp_all
  simp [hcfg, hok, chooseEngine, primaryDuration, hsel]
  simp_all

/-- Claim C8: with declared source Auto and a successful detection, the
resolved target is English when the detected language equals the native
language, and the native language otherwise (in particular for detected
English and for any third language). -/
theorem c8_auto_target (env : Env) (st : AppState) (text d : String)
    (ht : isBlankText text = false) (hauto : st.fromLang = "Auto")
    (hd : detectOutcome env st text = Except.ok d) :
    (handle env st text).state.toLang =
      (if d = nativeLangOf env then "English" else nativeLangOf env) := by
  rw [handle_toLang env st text d ht hd, hauto]
  by_cases hdn : d = nativeLangOf env
  · simp [computeActualTo, hdn]
  · by_cases hdE : d = "English" <;> simp [computeActualTo, hdn, hdE]

/-- Claim C8, witness: native Japanese, detected English, target
resolves to Japanese. -/
theorem c8_witness : (handle baseEnv baseState "hello").state.toLang =
    (if "English" = nativeLangOf baseEnv then "English" else nativeLangOf baseEnv) :=
  c8_auto_target baseEnv baseState "hello" "English" (by decide) rfl rfl

/-- Claim C10, counterexample: on a cache-hit run that started with
declared source Auto, the declared-source state is also modified (set to
the detected language), not only the translated text and the target. -/
theorem c10_counterexample :
    (handle baseEnv stHitAuto "hello").calls = []
    ∧ (handle baseEnv stHitAuto "hello").state.translatedText = "cached-tr"
    ∧ stHitAuto.fromLang = "Auto"
    ∧ (handle baseEnv stHitAuto "hello").state.fromLang = "English" := by
  refine ⟨rfl, rfl, rfl, rfl⟩

/-- Claim C10 (amended): on a cache-hit run the result is exactly the
previous state with the translated text set to the cached value, the
target language updated by resolution, the source language updated when
it was Auto, and the is-translating flag false; engine and latency
metadata keep their previous values, no backend call, history write or
cache write happens, and the is-translating flag is never raised. -/
theorem c10_amended (env : Env) (st : AppState) (text d v : String)
    (ht : isBlankText text = false)
    (hd : detectOutcome env st text = Except.ok d)
    (hhit : st.translationCache.lookup
      (cacheKeyOf text d (computeActualTo st.fromLang st.toLang (nativeLangOf env) d)) = some v) :
    handle env st text =
      { state := { st with
          fromLang := if st.fromLang == "Auto" then d else st.fromLang,
          toLang := computeActualTo st.fromLang st.toLang (nativeLangOf env) d,
          translatedText := v,
          isTranslating := false },
        calls := [], history := [], sawTranslatingTrue := false,
        fallbackSucceeded := false } :=
  handle_cache_hit env st text d v ht hd hhit

/-- Claim C10, witness: concrete cache-hit run. -/
theorem c10_amended_witness :
    handle baseEnv stHitAuto "hello" =
      { state := { stHitAuto with
          fromLang := if stHitAuto.fromLang == "Auto" then "English" else stHitAuto.fromLang,
          toLang := computeActualTo stHitAuto.fromLang stHitAuto.toLang
            (nativeLangOf baseEnv) "English",
          translatedText := "cached-tr",
          isTranslating := false },
        calls := [], history := [], sawTranslatingTrue := false,
        fallbackSucceeded := false } :=
  c10_amended baseEnv stHitAuto "hello" "English" "cached-tr" (by decide) rfl rfl

/-- Claim C1, counterexample: with native language English, declared
source Auto and detection answering English, the run calls the engine
with source equal to target (English, English). -/
theorem c1_counterexample :
    ((handle envNativeEnglish baseState "hello").calls.map
      (fun c => (c.fromLang, c.toLang))) = [("English", "English")]
    ∧ baseState.fromLang = "Auto"
    ∧ nativeLangOf envNativeEnglish = "English" := by
  refine ⟨rfl, rfl, rfl⟩

/-- Claim C1 (amended): whenever detection succeeds and it is not the
case that the detected language and the native language are both
English, every backend translate call of the run uses a pair with
distinct source and target. -/
theorem c1_amended (env : Env) (st : AppState) (text d : String)
    (ht : isBlankText text = false)
    (hd : detectOutcome env st text = Except.ok d)
    (h : ¬(d = "English" ∧ nativeLangOf env = "English")) :
    ((handle env st text).calls.all (fun c => c.fromLang != c.toLang)) = true := by
  have hne : (d != computeActualTo st.fromLang st.toLang (nativeLangOf env) d) = true := by
    simpa using (computeActualTo_ne st.fromLang st.toLang (nativeLangOf env) d h).symm
  unfold handle
  rw [ht, hd]
  simp only [Bool.false_eq_true, if_false]
  cases hl : st.translationCache.lookup
      (cacheKeyOf text d (computeActualTo st.fromLang st.toLang (nativeLangOf env) d)) with
  | some cached => simp [hl]
  | none =>
    simp only [hl]
    cases hp : primaryTranslate env st text d
        (computeActualTo st.fromLang st.toLang (nativeLangOf env) d) with
    | ok r => simp [hp, hne]
    | error e =>
      simp only [hp]
      unfold runCatch
      by_cases hcfg : (st.useMLEngine && st.mlEngineHealthy && st.isHealthy) = true
      · cases ho : env.ollamaTranslate text d
            (computeActualTo st.fromLang st.toLang (nativeLangOf env) d) with
        | ok s => simp [hcfg, ho, hne]
        | error e2 => simp [hcfg, ho, hne]
      · simp only [Bool.not_eq_true] at hcfg
        simp [hcfg, hne]

/-- Claim C1, witness: native Japanese, detected English. -/
theorem c1_amended_witness :
    ((handle baseEnv baseState "hello").calls.all
      (fun c => c.fromLang != c.toLang)) = true :=
  c1_amended baseEnv baseState "hello" "English" (by decide) rfl (by decide)

/-- Claim C5, counterexample: declared source Japanese, target English,
detection answering French: the engine is called with source French, not
the declared Japanese, so the declared pair is not passed through. -/
theorem c5_counterexample :
    ((handle envDetectFrench stManual "hello").calls.map
      (fun c => (c.fromLang, c.toLang))) = [("French", "English")]
    ∧ stManual.fromLang = "Japanese" ∧ stManual.toLang = "English" := by
  refine ⟨rfl, rfl, rfl⟩

/-- Claim C5 (amended): in manual mode, when the detected language
differs from the current target, the effective target equals the
declared target and the declared source state is left unchanged, but the
effective source of every engine call is the detection result, which
overrides the declared source. -/
theorem c5_amended (env : Env) (st : AppState) (text d : String)
    (ht : isBlankText text = false)
    (hfrom : st.fromLang ≠ "Auto")
    (hd : detectOutcome env st text = Except.ok d)
    (hne : d ≠ st.toLang) :
    ((handle env st text).calls.all
      (fun c => c.fromLang == d && c.toLang == st.toLang)) = true
    ∧ (handle env st text).state.toLang = st.toLang
    ∧ (handle env st text).state.fromLang = st.fromLang := by
  have haT : computeActualTo st.fromLang st.toLang (nativeLangOf env) d = st.toLang := by
    simp [computeActualTo, hfrom, hne]
  have hfromb : (st.fromLang == "Auto") = false := by simpa using hfrom
  unfold handle
  rw [ht, hd]
  simp only [Bool.false_eq_true, if_false, haT]
  cases hl : st.translationCache.lookup (cacheKeyOf text d st.toLang) with
  | some cached => simp [hl, hfromb]
  | none =>
    simp only [hl]
    cases hp : primaryTranslate env st text d st.toLang with
    | ok r => simp [hp, hfromb]
    | error e =>
      simp only [hp]
      unfold runCatch
      by_cases hcfg : (st.useMLEngine && st.mlEngineHealthy && st.isHealthy) = true
      · cases ho : env.ollamaTranslate text d st.toLang with
        | ok s => simp [hcfg, ho, hfromb]
        | error e2 => simp [hcfg, ho, hfromb]
      · simp only [Bool.not_eq_true] at hcfg
        simp [hcfg, hfromb]

/-- Claim C5, witness: concrete manual-mode run with detection French. -/
theorem c5_amended_witness :
    ((handle envDetectFrench stManual "hello").calls.all
      (fun c => c.fromLang == "French" && c.toLang == stManual.toLang)) = true
    ∧ (handle envDetectFrench stManual "hello").state.toLang = stManual.toLang
    ∧ (handle envDetectFrench stManual "hello").state.fromLang = stManual.fromLang :=
  c5_amended envDetectFrench stManual "hello" "French" (by decide) (by decide) rfl (by decide)

/-- Claim C6: after one successful primary translation from a concrete
source, an identical second invocation is a cache hit: same translated
text, no backend translate call, no history write, no new latency or
engine metadata, unchanged cache, and the is-translating flag is never
raised. -/
theorem c6_second_call_cache_hit (env : Env) (st : AppState) (text d : String)
    (r : PrimaryOk)
    (ht : isBlankText text = false)
    (hfrom : st.fromLang ≠ "Auto")
    (_hft : st.fromLang ≠ st.toLang)
    (hd : detectOutcome env st text = Except.ok d)
    (hmiss : st.translationCache.lookup
      (cacheKeyOf text d (computeActualTo st.fromLang st.toLang (nativeLangOf env) d)) = none)
    (hok : primaryTranslate env st text d
      (computeActualTo st.fromLang st.toLang (nativeLangOf env) d) = Except.ok r) :
    (handle env (handle env st text).state text).state.translatedText
        = (handle env st text).state.translatedText
    ∧ (handle env (handle env st text).state text).calls = []
    ∧ (handle env (handle env st text).state text).history = []
    ∧ (handle env (handle env st text).state text).sawTranslatingTrue = false
    ∧ (handle env (handle env st text).state text).state.lastTranslationLatency
        = (handle env st text).state.lastTranslationLatency
    ∧ (handle env (handle env st text).state text).state.lastUsedEngine
        = (handle env st text).state.lastUsedEngine
    ∧ (handle env (handle env st text).state text).state.translationCache
        = (handle env st text).state.translationCache := by
  have hfromb : (st.fromLang == "Auto") = false := by simpa using hfrom
  have hstab := computeActualTo_stable st.fromLang st.toLang (nativeLangOf env) d hfrom
  rw [handle_primary_ok env st text d r ht hd hmiss hok]
  simp only
  have hd2 : detectOutcome env ({ st with
      fromLang := if st.fromLang == "Auto" then d else st.fromLang,
      toLang := computeActualTo st.fromLang st.toLang (nativeLangOf env) d,
      translatedText := r.text,
      lastTranslationLatency := some r.recorded,
      lastUsedEngine := some (chooseEngine st),
      isTranslating := false,
      translationCache := limitCache (mapSet st.translationCache
        (cacheKeyOf text d (computeActualTo st.fromLang st.toLang (nativeLangOf env) d))
        r.text) } : AppState) text = Except.ok d := by
    simpa [detectOutcome] using hd
  have hhit2 : ({ st with
      fromLang := if st.fromLang == "Auto" then d else st.fromLang,
      toLang := computeActualTo st.fromLang st.toLang (nativeLangOf env) d,
      translatedText := r.text,
      lastTranslationLatency := some r.recorded,
      lastUsedEngine := some (chooseEngine st),
      isTranslating := false,
      translationCache := limitCache (mapSet st.translationCache
        (cacheKeyOf text d (computeActualTo st.fromLang st.toLang (nativeLangOf env) d))
        r.text) } : AppState).translationCache.lookup
      (cacheKeyOf text d (computeActualTo
        ({ st with
          fromLang := if st.fromLang == "Auto" then d else st.fromLang,
          toLang := computeActualTo st.fromLang st.toLang (nativeLangOf env) d,
          translatedText := r.text,
          lastTranslationLatency := some r.recorded,
          lastUsedEngine := some (chooseEngine st),
          isTranslating := false,
          translationCache := limitCache (mapSet st.translationCache
            (cacheKeyOf text d (computeActualTo st.fromLang st.toLang (nativeLangOf env) d))
            r.text) } : AppState).fromLang
        ({ st with
          fromLang := if st.fromLang == "Auto" then d else st.fromLang,
          toLang := computeActualTo st.fromLang st.toLang (nativeLangOf env) d,
          translatedText := r.text,
          lastTranslationLatency := some r.recorded,
          lastUsedEngine := some (chooseEngine st),
          isTranslating := false,
          translationCache := limitCache (mapSet st.translationCache
            (cacheKeyOf text d (computeActualTo st.fromLang st.toLang (nativeLangOf env) d))
            r.text) } : AppState).toLang
        (nativeLangOf env) d)) = some r.text := by
    simp only [hfromb, Bool.false_eq_true, if_false]
    rw [hstab]
    exact lookup_limitCache_mapSet st.translationCache _ r.text hmiss
  rw [handle_cache_hit env _ text d r.text ht hd2 hhit2]
  simp

/-- Claim C6, witness: concrete repeat invocation. -/
theorem c6_witness :
    (handle baseEnv (handle baseEnv stTwoLangs "hello").state "hello").state.translatedText
        = (handle baseEnv stTwoLangs "hello").state.translatedText
    ∧ (handle baseEnv (handle baseEnv stTwoLangs "hello").state "hello").calls = []
    ∧ (handle baseEnv (handle baseEnv stTwoLangs "hello").state "hello").history = []
    ∧ (handle baseEnv (handle baseEnv stTwoLangs "hello").state "hello").sawTranslatingTrue = false
    ∧ (handle baseEnv (handle baseEnv stTwoLangs "hello").state "hello").state.lastTranslationLatency
        = (handle baseEnv stTwoLangs "hello").state.lastTranslationLatency
    ∧ (handle baseEnv (handle baseEnv stTwoLangs "hello").state "hello").state.lastUsedEngine
        = (handle baseEnv stTwoLangs "hello").state.lastUsedEngine
    ∧ (handle baseEnv (handle baseEnv stTwoLangs "hello").state "hello").state.translationCache
        = (handle baseEnv stTwoLangs "hello").state.translationCache :=
  c6_second_call_cache_hit baseEnv stTwoLangs "hello" "English" ⟨"ol-res", 20, 20⟩
    (by decide) (by decide) (by decide) rfl rfl rfl

/-- Claim C7: when both backends fail on every argument (and the request
is not already cached), the run leaves the cache unchanged, shows a
message from the fixed taxonomy, ends with the is-translating flag
false, no fallback success and no history write. -/
theorem c7_both_fail (env : Env) (st : AppState) (text : String) (e1 e2 : ErrVal)
    (ht : isBlankText text = false)
    (hml : ∀ a b c, env.mlTranslate a b c = Except.error e1)
    (hol : ∀ a b c, env.ollamaTranslate a b c = Except.error e2)
    (hmiss : ∀ d, detectOutcome env st text = Except.ok d →
      st.translationCache.lookup
        (cacheKeyOf text d (computeActualTo st.fromLang st.toLang (nativeLangOf env) d)) = none) :
    (handle env st text).state.translationCache = st.translationCache
    ∧ inErrorTaxonomy (handle env st text).state.translatedText
    ∧ (handle env st text).state.isTranslating = false
    ∧ (handle env st text).fallbackSucceeded = false
    ∧ (handle env st text).history = [] := by
  unfold handle
  rw [ht]
  simp only [Bool.false_eq_true, if_false]
  cases hdet : detectOutcome env st text with
  | error e =>
    unfold runCatch
    by_cases hcfg : (st.useMLEngine && st.mlEngineHealthy && st.isHealthy) = true
    · simp [hcfg, hol, errorMessageFor_taxonomy]
    · simp only [Bool.not_eq_true] at hcfg
      simp [hcfg, errorMessageFor_taxonomy]
  | ok d =>
    simp only [hmiss d hdet]
    cases hsel : (st.useMLEngine && st.mlEngineHealthy) with
    | true =>
      have hprim : primaryTranslate env st text d
          (computeActualTo st.fromLang st.toLang (nativeLangOf env) d) = Except.error e1 := by
        simp [primaryTranslate, hsel, hml, Except.map]
      simp only [hprim]
      unfold runCatch
      by_cases hcfg : (st.useMLEngine && st.mlEngineHealthy && st.isHealthy) = true
      · simp [hcfg, hol, errorMessageFor_taxonomy]
      · simp only [Bool.not_eq_true] at hcfg
        simp [hcfg, errorMessageFor_taxonomy]
    | false =>
      have hprim : primaryTranslate env st text d
          (computeActualTo st.fromLang st.toLang (nativeLangOf env) d) = Except.error e2 := by
        simp [primaryTranslate, hsel, hol, Except.map]
      simp only [hprim]
      unfold runCatch
      by_cases hcfg : (st.useMLEngine && st.mlEngineHealthy && st.isHealthy) = true
      · simp [hcfg, hol, errorMessageFor_taxonomy]
      · simp only [Bool.not_eq_true] at hcfg
        simp [hcfg, errorMessageFor_taxonomy]

/-- Claim C7, witness: both translators failing concretely. -/
theorem c7_witness :
    (handle envBothFail baseState "hello").state.translationCache = baseState.translationCache
    ∧ inErrorTaxonomy (handle envBothFail baseState "hello").state.translatedText
    ∧ (handle envBothFail baseState "hello").state.isTranslating = false
    ∧ (handle envBothFail baseState "hello").fallbackSucceeded = false
    ∧ (handle envBothFail baseState "hello").history = [] :=
  c7_both_fail envBothFail baseState "hello"
    (ErrVal.str "Cannot connect to Ollama (os error 61)") ErrVal.other
    (by decide) (fun _ _ _ => rfl) (fun _ _ _ => rfl) (fun _ _ => rfl)

/-- Claim C2, counterexample: a run whose result comes from the
catch-block Ollama fallback writes the cache without the size limiter,
leaving 101 entries. -/
theorem c2_counterexample :
    (handle envMLBoom stFullCacheML "hello").state.translationCache.length = 101
    ∧ (handle envMLBoom stFullCacheML "hello").fallbackSucceeded = true := by
  refine ⟨rfl, rfl⟩

/-- Claim C2 (amended): on the primary success path, inserting a fresh
entry into a full (100-entry) cache evicts exactly the earliest-inserted
entry - the result is the old cache minus its head plus the new binding
at the end, again of size 100; the fallback path is excluded, since it
writes without the limiter. -/
theorem c2_amended (env : Env) (st : AppState) (text d : String) (r : PrimaryOk)
    (hk : ∀ p ∈ st.translationCache, p.1 ≠ "")
    (ht : isBlankText text = false)
    (hd : detectOutcome env st text = Except.ok d)
    (hfull : st.translationCache.length = 100)
    (hmiss : st.translationCache.lookup
      (cacheKeyOf text d (computeActualTo st.fromLang st.toLang (nativeLangOf env) d)) = none)
    (hok : primaryTranslate env st text d
      (computeActualTo st.fromLang st.toLang (nativeLangOf env) d) = Except.ok r) :
    (handle env st text).state.translationCache =
      st.translationCache.tail ++
        [(cacheKeyOf text d (computeActualTo st.fromLang st.toLang (nativeLangOf env) d), r.text)]
    ∧ (handle env st text).state.translationCache.length = 100
    ∧ (handle env st text).fallbackSucceeded = false := by
  rw [handle_primary_ok env st text d r ht hd hmiss hok]
  simp only
  rw [mapSet_of_lookup_none r.text hmiss]
  cases hc : st.translationCache with
  | nil => rw [hc] at hfull; simp at hfull
  | cons p t =>
    rw [hc] at hfull
    have ht99 : t.length = 99 := by simpa using hfull
    have hp1 : p.1 ≠ "" := hk p (by rw [hc]; exact List.mem_cons_self p t)
    have hp1b : (p.1 == "") = false := by simpa using hp1
    refine ⟨?_, ?_, trivial⟩
    · simp [limitCache, hp1b, mapDelete, List.eraseP_cons, ht99]
    · simp [limitCache, hp1b, mapDelete, List.eraseP_cons, ht99]

/-- Claim C2, witness: concrete insertion into a full cache. -/
theorem c2_amended_witness :
    (handle baseEnv stFullCache "hello").state.translationCache =
      stFullCache.translationCache.tail ++
        [(cacheKeyOf "hello" "English"
            (computeActualTo stFullCache.fromLang stFullCache.toLang
              (nativeLangOf baseEnv) "English"), "ol-res")]
    ∧ (handle baseEnv stFullCache "hello").state.translationCache.length = 100
    ∧ (handle baseEnv stFullCache "hello").fallbackSucceeded = false :=
  c2_amended baseEnv stFullCache "hello" "English" ⟨"ol-res", 20, 20⟩
    (by decide) (by decide) rfl rfl rfl rfl

/-- Claim C3, counterexample: with Ollama selected (preference flag off)
and the ML engine healthy, an Ollama failure is surfaced directly as an
error message; the healthy ML engine is never attempted. -/
theorem c3_counterexample :
    (handle envOllamaBoom stOllamaPreferred "hello").state.translatedText = "エラー: boom"
    ∧ ((handle envOllamaBoom stOllamaPreferred "hello").calls.map (fun c => c.engine))
        = [Engine.ollama]
    ∧ stOllamaPreferred.mlEngineHealthy = true
    ∧ (handle envOllamaBoom stOllamaPreferred "hello").state.lastUsedEngine = none := by
  refine ⟨rfl, rfl, rfl, rfl⟩

/-- Claim C3 (amended): fallback exists only in the direction ML to
Ollama: when the ML engine is selected and healthy, Ollama is healthy,
the ML attempt fails and the Ollama attempt succeeds, the run succeeds
reporting Ollama as the engine used. -/
theorem c3_amended (env : Env) (st : AppState) (text d s : String) (e : ErrVal)
    (ht : isBlankText text = false)
    (hsel : (st.useMLEngine && st.mlEngineHealthy) = true)
    (hoh : st.isHealthy = true)
    (hd : detectOutcome env st text = Except.ok d)
    (hmiss : st.translationCache.lookup
      (cacheKeyOf text d (computeActualTo st.fromLang st.toLang (nativeLangOf env) d)) = none)
    (hfail : env.mlTranslate text d
      (computeActualTo st.fromLang st.toLang (nativeLangOf env) d) = Except.error e)
    (hok : env.ollamaTranslate text d
      (computeActualTo st.fromLang st.toLang (nativeLangOf env) d) = Except.ok s) :
    (handle env st text).state.translatedText = s
    ∧ (handle env st text).state.lastUsedEngine = some Engine.ollama
    ∧ ((handle env st text).calls.map (fun c => c.engine)) = [Engine.ml, Engine.ollama]
    ∧ (handle env st text).fallbackSucceeded = true := by
  rw [handle_mlfail_fallback_ok env st text d s e ht hsel hoh hd hmiss hfail hok]
  simp

/-- Claim C3, witness: concrete ML failure with Ollama fallback. -/
theorem c3_amended_witness :
    (handle envMLBoom stMLSel "hello").state.translatedText = "ol-res"
    ∧ (handle envMLBoom stMLSel "hello").state.lastUsedEngine = some Engine.ollama
    ∧ ((handle envMLBoom stMLSel "hello").calls.map (fun c => c.engine))
        = [Engine.ml, Engine.ollama]
    ∧ (handle envMLBoom stMLSel "hello").fallbackSucceeded = true :=
  c3_amended envMLBoom stMLSel "hello" "English" "ol-res" (ErrVal.str "boom")
    (by decide) rfl rfl rfl rfl rfl rfl

/-- Claim C4, counterexample: with Ollama selected, a detection failure
alone aborts the run with a user-visible error message and no
translation attempt, although the backend is healthy. -/
theorem c4_counterexample :
    (handle envDetectBoom baseState "hello").state.translatedText = "エラー: detect boom"
    ∧ (handle envDetectBoom baseState "hello").calls = []
    ∧ baseState.isHealthy = true := by
  refine ⟨rfl, rfl, rfl⟩

/-- Claim C4 (amended): a detection failure jumps to the error handler:
no pair resolution happens; a translation is still attempted only in the
ML-selected-and-both-healthy configuration, via Ollama with the raw
declared languages and the empty cache key; in every other configuration
the classified error message is shown. -/
theorem c4_amended (env : Env) (st : AppState) (text : String) (e : ErrVal)
    (ht : isBlankText text = false)
    (hd : detectOutcome env st text = Except.error e) :
    (handle env st text).state.translatedText =
      (if st.useMLEngine && st.mlEngineHealthy && st.isHealthy then
        (match env.ollamaTranslate text st.fromLang st.toLang with
         | Except.ok s => s
         | Except.error _ => errorMessageFor e st)
       else errorMessageFor e st)
    ∧ ((handle env st text).calls.all (fun c =>
        c.engine == Engine.ollama && c.fromLang == st.fromLang && c.toLang == st.toLang)) = true
    ∧ (handle env st text).sawTranslatingTrue = false
    ∧ (handle env st text).state.toLang = st.toLang
    ∧ (handle env st text).state.translationCache =
      (if st.useMLEngine && st.mlEngineHealthy && st.isHealthy then
        (match env.ollamaTranslate text st.fromLang st.toLang with
         | Except.ok s => mapSet st.translationCache "" s
         | Except.error _ => st.translationCache)
       else st.translationCache) := by
  unfold handle
  rw [ht, hd]
  simp only [Bool.false_eq_true, if_false]
  unfold runCatch
  by_cases hcfg : (st.useMLEngine && st.mlEngineHealthy && st.isHealthy) = true
  · cases ho : env.ollamaTranslate text st.fromLang st.toLang with
    | ok s => simp [hcfg, ho]
    | error e2 => simp [hcfg, ho]
  · simp only [Bool.not_eq_true] at hcfg
    simp [hcfg]

/-- Claim C4, witness: concrete detection failure without fallback. -/
theorem c4_amended_witness :
    (handle envDetectBoom baseState "hello").state.translatedText =
      (if baseState.useMLEngine && baseState.mlEngineHealthy && baseState.isHealthy then
        (match envDetectBoom.ollamaTranslate "hello" baseState.fromLang baseState.toLang with
         | Except.ok s => s
         | Except.error _ => errorMessageFor (ErrVal.str "detect boom") baseState)
       else errorMessageFor (ErrVal.str "detect boom") baseState)
    ∧ ((handle envDetectBoom baseState "hello").calls.all (fun c =>
        c.engine == Engine.ollama && c.fromLang == baseState.fromLang
          && c.toLang == baseState.toLang)) = true
    ∧ (handle envDetectBoom baseState "hello").sawTranslatingTrue = false
    ∧ (handle envDetectBoom baseState "hello").state.toLang = baseState.toLang
    ∧ (handle envDetectBoom baseState "hello").state.translationCache =
      (if baseState.useMLEngine && baseState.mlEngineHealthy && baseState.isHealthy then
        (match envDetectBoom.ollamaTranslate "hello" baseState.fromLang baseState.toLang with
         | Except.ok s => mapSet baseState.translationCache "" s
         | Except.error _ => baseState.translationCache)
       else baseState.translationCache) :=
  c4_amended envDetectBoom baseState "hello" (ErrVal.str "detect boom") (by decide) rfl

/-- Claim C9, counterexample: an ML-engine success records the
engine-reported latency (7) although the call itself took 50 wall-clock
units, so the reported latency is not measured by the orchestrator. -/
theorem c9_counterexample :
    (handle baseEnv stMLSel "hello").state.lastTranslationLatency = some 7
    ∧ (handle baseEnv stMLSel "hello").calls =
        [⟨Engine.ml, "hello", "English", "Japanese", 50, true⟩] := by
  refine ⟨rfl, rfl⟩

/-- Claim C9 (amended): for an Ollama fallback success the recorded
latency is the wall-clock duration of the succeeding Ollama call alone,
excluding the failed ML attempt; ML successes instead record the
engine-reported value. -/
theorem c9_amended (env : Env) (st : AppState) (text d s : String) (e : ErrVal)
    (ht : isBlankText text = false)
    (hsel : (st.useMLEngine && st.mlEngineHealthy) = true)
    (hoh : st.isHealthy = true)
    (hd : detectOutcome env st text = Except.ok d)
    (hmiss : st.translationCache.lookup
      (cacheKeyOf text d (computeActualTo st.fromLang st.toLang (nativeLangOf env) d)) = none)
    (hfail : env.mlTranslate text d
      (computeActualTo st.fromLang st.toLang (nativeLangOf env) d) = Except.error e)
    (hok : env.ollamaTranslate text d
      (computeActualTo st.fromLang st.toLang (nativeLangOf env) d) = Except.ok s) :
    (handle env st text).state.lastTranslationLatency = some env.ollamaDuration
    ∧ ((handle env st text).calls.map (fun c => c.duration))
        = [env.mlDuration, env.ollamaDuration]
    ∧ (handle env st text).state.lastUsedEngine = some Engine.ollama := by
  rw [handle_mlfail_fallback_ok env st text d s e ht hsel hoh hd hmiss hfail hok]
  simp

/-- Claim C9, witness: concrete fallback run. -/
theorem c9_amended_witness :
    (handle envMLBoom stMLSel "hello").state.lastTranslationLatency =
      some envMLBoom.ollamaDuration
    ∧ ((handle envMLBoom stMLSel "hello").calls.map (fun c => c.duration))
        = [envMLBoom.mlDuration, envMLBoom.ollamaDuration]
    ∧ (handle envMLBoom stMLSel "hello").state.lastUsedEngine = some Engine.ollama :=
  c9_amended envMLBoom stMLSel "hello" "English" "ol-res" (ErrVal.str "boom")
    (by decide) rfl rfl rfl rfl rfl rfl

end NeuralTranslator
